import Mathlib

/-!
Formal model of the document-search repository.

Source files modelled:
- src/python_scripts/search.py  (class DocumentSearcher, method find_similar_documents)
- src/python_scripts/server.py  (Flask handlers: initialize_searcher, health, search_documents)

Conventions of the embedding:
- NumPy float64 vectors are modelled over the real numbers.
- A vector is a List of reals; the embedding matrix is a List of rows.
- Python exceptions are modelled with Except / Option result types.
- The similarity call delegated to sklearn.metrics.pairwise.cosine_similarity is
  modelled after that library's documented semantics: each vector is L2-normalised
  (sklearn.preprocessing.normalize replaces a zero norm by 1, so a zero vector
  stays the zero vector), then pairwise dot products are taken.
- np.argsort (ascending) is modelled as the stable argsort: indices ordered by
  (value, index) lexicographically.  NumPy's default sort runs insertion sort on
  small arrays, which is stable, so on the concrete inputs used below this model
  provably matches NumPy's behaviour.
-/

/-- One entry of document_data['documents'] in search.py: a dict carrying an
'id' plus the remaining metadata fields (abstracted as `meta`). -/
structure Document (ι : Type) (μ : Type) where
  id : ι
  meta : μ
deriving DecidableEq

/-- State of search.py's DocumentSearcher relevant to find_similar_documents:
`embeddings` (None until load_embeddings ran) and `documentData` (the
'documents' list of the JSON file, None until load_document_data ran).
load_document_data derives document_ids as the positional map of ids over
documentData, so document_ids is not stored separately. -/
structure DocumentSearcher (ι μ : Type) where
  embeddings : Option (List (List ℝ))
  documentData : Option (List (Document ι μ))

/-- Sum of squares of a vector; the square of its L2 norm. -/
def sumSq (v : List ℝ) : ℝ := (v.map fun x => x * x).sum

/-- Dot product of two equal-length vectors. -/
def dotList (v w : List ℝ) : ℝ := (List.zipWith (fun a b => a * b) v w).sum

/-- The row normalisation performed by sklearn.preprocessing.normalize with the
L2 norm: divide by the norm, except that a zero norm is replaced by 1 (so a
zero row is left unchanged). -/
noncomputable def l2normalize (v : List ℝ) : List ℝ :=
  if Real.sqrt (sumSq v) = 0 then v else v.map fun x => x / Real.sqrt (sumSq v)

/-- Cosine similarity of two vectors as computed by
sklearn.metrics.pairwise.cosine_similarity: dot product of the two
L2-normalised vectors. -/
noncomputable def cosineSim (q r : List ℝ) : ℝ := dotList (l2normalize q) (l2normalize r)

/-- Line 95 of search.py: similarities = cosine_similarity(query_embedding, self.embeddings)[0],
one score per matrix row, in row order. -/
noncomputable def cosineSimilarities (q : List ℝ) (M : List (List ℝ)) : List ℝ :=
  M.map (cosineSim q)

/-- The comparison used to model np.argsort(similarities) as a stable ascending
sort of indices: index i precedes index j when its score is smaller, or when the
scores tie and i comes first in the original order. -/
def argRel (sims : List ℝ) (i j : ℕ) : Prop :=
  sims.getD i 0 < sims.getD j 0 ∨ (sims.getD i 0 = sims.getD j 0 ∧ i ≤ j)

noncomputable instance argRelDecidable (sims : List ℝ) : DecidableRel (argRel sims) := by
  intro i j
  unfold argRel
  infer_instance

/-- Strict version of `argRel` (distinct indices): used to state tie-breaking. -/
def argRelStrict (sims : List ℝ) (i j : ℕ) : Prop :=
  sims.getD i 0 < sims.getD j 0 ∨ (sims.getD i 0 = sims.getD j 0 ∧ i < j)

/-- Model of np.argsort(similarities): the indices 0..n-1 sorted ascending by
score, ties by original index ascending (stable). -/
noncomputable def argsort (sims : List ℝ) : List ℕ :=
  List.insertionSort (argRel sims) (List.range sims.length)

/-- Python list slicing l[:k] for an arbitrary (possibly negative) int k:
k >= 0 keeps the first min(k, len) elements; k < 0 drops the last |k|
(empty when |k| >= len). -/
def pySlice {α : Type} (l : List α) (k : ℤ) : List α :=
  if 0 ≤ k then l.take k.toNat else l.take ((l.length : ℤ) + k).toNat

/-- Line 99 of search.py: top_indices = np.argsort(similarities)[::-1][:top_k]. -/
noncomputable def topIndices (sims : List ℝ) (k : ℤ) : List ℕ :=
  pySlice (argsort sims).reverse k

/-- Lines 101-113 of search.py: the result-building loop.  For each selected
index: doc_id = document_ids[idx] (IndexError, modelled as none, when idx is out
of bounds), similarity_score = similarities[idx], and doc_data = the first
document of document_data['documents'] whose 'id' equals doc_id (None when no
document matches). -/
def joinResults {ι μ : Type} [DecidableEq ι] (ids : List ι) (docs : List (Document ι μ))
    (sims : List ℝ) : List ℕ → Option (List (ι × ℝ × Option (Document ι μ)))
  | [] => some []
  | idx :: rest =>
    match ids[idx]?, sims[idx]? with
    | some docId, some s =>
      match joinResults ids docs sims rest with
      | some tail => some ((docId, s, docs.find? fun d => decide (d.id = docId)) :: tail)
      | none => none
    | _, _ => none

/-- Lines 77-115 of search.py, DocumentSearcher.find_similar_documents.
Raises (models as .error) when embeddings or document data are not loaded;
the sklearn call then rejects an empty matrix (check_array: 0 samples) or a
dimensionality mismatch between query and rows (check_pairwise_arrays); the
error strings abbreviate the library messages.  Otherwise scores every row,
takes argsort(similarities)[::-1][:top_k] and joins each selected index to an
id, a score and the first id-matching document. -/
noncomputable def find_similar_documents {ι μ : Type} [DecidableEq ι]
    (s : DocumentSearcher ι μ) (query : List ℝ) (topK : ℤ) :
    Except String (List (ι × ℝ × Option (Document ι μ))) :=
  match s.embeddings with
  | none => .error "No embeddings loaded. Load embeddings first."
  | some M =>
    match s.documentData with
    | none => .error "No document data loaded. Load document data first."
    | some docs =>
      if M.length = 0 then .error "Found array with 0 sample(s)"
      else if M.any fun row => decide (row.length ≠ query.length) then
        .error "Incompatible dimension"
      else
        match joinResults (docs.map fun d => d.id) docs (cosineSimilarities query M)
            (topIndices (cosineSimilarities query M) topK) with
        | none => .error "list index out of range"
        | some res => .ok res

/-- A JSON value as decoded by Flask's request.get_json(), restricted to the
shapes the claims exercise.  JSON true/false decode to Python bool, which is a
subclass of int (True == 1, False == 0). -/
inductive JsonVal where
  | num (n : ℤ)
  | bool (b : Bool)
  | str (s : String)
  | null
deriving DecidableEq

/-- Python truthiness of a decoded JSON value: 0, False, empty string and None
are falsy. -/
def pyTruthy : JsonVal → Bool
  | .num n => decide (n ≠ 0)
  | .bool b => b
  | .str s => decide (s ≠ "")
  | .null => false

/-- Line 114 of server.py: isinstance(top_k, int) and not top_k < 1.
Python bools are instances of int, so True (== 1) passes and False (== 0)
fails; strings, floats and None fail isinstance. -/
def pyIsPosInt : JsonVal → Bool
  | .num n => decide (1 ≤ n)
  | .bool b => b
  | _ => false

/-- The integer value Python sees for a value that passed the isinstance check
(True == 1, False == 0). -/
def pyToInt : JsonVal → ℤ
  | .num n => n
  | .bool true => 1
  | .bool false => 0
  | _ => 0

/-- The metadata dict of one document as used by server.py's response
formatting: optional title/category/author/date/text fields plus tags. -/
structure DocMeta where
  title : Option String
  category : Option String
  author : Option String
  date : Option String
  text : Option String
  tags : List String
deriving DecidableEq

/-- Python string slicing s[:n] (by characters). -/
def pyStrTake (s : String) (n : ℕ) : String := ⟨s.data.take n⟩

/-- One entry of the JSON response built in lines 123-135 of server.py. -/
structure ResultItem (ι : Type) where
  document_id : ι
  similarity_score : ℝ
  title : String
  category : String
  author : String
  text_preview : String
  date : String
  tags : List String

/-- Lines 124-135 of server.py: formatting of one (doc_id, score, doc_data)
triple.  Each metadata field falls back to 'N/A'; text_preview is
doc_data.get('text','N/A')[:200] + "..." when doc_data and its text are truthy,
else 'N/A'. -/
def formatResultItem {ι : Type} (r : ι × ℝ × Option (Document ι DocMeta)) : ResultItem ι :=
  match r with
  | (docId, score, docData) =>
    { document_id := docId
      similarity_score := score
      title := match docData with
        | some d => d.meta.title.getD "N/A"
        | none => "N/A"
      category := match docData with
        | some d => d.meta.category.getD "N/A"
        | none => "N/A"
      author := match docData with
        | some d => d.meta.author.getD "N/A"
        | none => "N/A"
      text_preview := match docData with
        | some d =>
          match d.meta.text with
          | some t => if t = "" then "N/A" else pyStrTake t 200 ++ "..."
          | none => "N/A"
        | none => "N/A"
      date := match docData with
        | some d => d.meta.date.getD "N/A"
        | none => "N/A"
      tags := match docData with
        | some d => d.meta.tags
        | none => [] }

/-- The HTTP response of POST /search: an error status with a message, or the
200 payload (echoed query, top_k, formatted results). -/
inductive SearchResponse (ι : Type) where
  | err (status : ℕ) (msg : String)
  | ok (query : JsonVal) (top_k : ℤ) (results : List (ResultItem ι))

/-- HTTP status code of a response (200 for the success payload). -/
def SearchResponse.status {ι : Type} : SearchResponse ι → ℕ
  | .err s _ => s
  | .ok _ _ _ => 200

/-- Line 111 of server.py: top_k = data.get('top_k', 5) - the default 5 applies
only when the key is absent (an explicit JSON null is kept and later rejected). -/
def effectiveTopK (data : List (String × JsonVal)) : JsonVal :=
  (List.lookup "top_k" data).getD (.num 5)

/-- Lines 77-147 of server.py, the POST /search handler.  The request body is
modelled as an optional key-value object (none: get_json produced no data);
the external sentence-transformer model (spec section 4.1: a deterministic
opaque vectorizer) is a function parameter `embed`.  In order: 500 when the
global searcher is None; 400 when the body is missing or empty; 400 when the
'query' field is missing or falsy; 400 when top_k fails the positive-int check;
otherwise run the search, mapping a raised error to 500 and formatting results
on success.  The error strings abbreviate the Python messages (the quotes
around field names are omitted). -/
noncomputable def search_documents {ι : Type} [DecidableEq ι]
    (searcher : Option (DocumentSearcher ι DocMeta)) (embed : JsonVal → List ℝ)
    (body : Option (List (String × JsonVal))) : SearchResponse ι :=
  match searcher with
  | none => .err 500 "Document searcher not initialized"
  | some s =>
    match body with
    | none => .err 400 "No JSON data provided"
    | some data =>
      if data.isEmpty then .err 400 "No JSON data provided"
      else
        match List.lookup "query" data with
        | none => .err 400 "No query field provided in request body"
        | some q =>
          if pyTruthy q = false then .err 400 "No query field provided in request body"
          else if pyIsPosInt (effectiveTopK data) = false then
            .err 400 "top_k must be a positive integer"
          else
            match find_similar_documents s (embed q) (pyToInt (effectiveTopK data)) with
            | .error e => .err 500 ("Search failed: " ++ e)
            | .ok rs => .ok q (pyToInt (effectiveTopK data)) (rs.map formatResultItem)

/-- The files the server reads at startup; none models a missing or unreadable
file. -/
structure ServerEnv (ι μ : Type) where
  embeddingsFile : Option (List (List ℝ))
  dataFile : Option (List (Document ι μ))

/-- Lines 21-45 of server.py, initialize_searcher(): constructs the searcher
object first (so the global is already non-None), then checks that both files
exist and loads them.  Returns (success flag, resulting global searcher).
A failure after construction leaves the global holding an unloaded searcher. -/
def initialize_searcher {ι μ : Type} (env : ServerEnv ι μ) :
    Bool × Option (DocumentSearcher ι μ) :=
  let s0 : DocumentSearcher ι μ := ⟨none, none⟩
  match env.embeddingsFile with
  | none => (false, some s0)
  | some emb =>
    match env.dataFile with
    | none => (false, some ⟨some emb, none⟩)
    | some docs => (true, some ⟨some emb, some docs⟩)

/-- Lines 164-183 of server.py (the __main__ block): the process serves requests
only when initialize_searcher succeeded, otherwise it exits (modelled as none).
The value carried by some is the global searcher of the serving process. -/
def serverMain {ι μ : Type} (env : ServerEnv ι μ) : Option (Option (DocumentSearcher ι μ)) :=
  match initialize_searcher env with
  | (true, s) => some s
  | (false, _) => none

/-- Lines 69-75 of server.py, the GET /health handler: a constant status string
plus the boolean searcher is not None. -/
def health {ι μ : Type} (searcher : Option (DocumentSearcher ι μ)) : String × Bool :=
  ("healthy", searcher.isSome)

/-- Spec-side predicate for claim C9: the ranker is loaded, i.e. both the
embeddings and the document data have been read into the searcher. -/
def isLoaded {ι μ : Type} : Option (DocumentSearcher ι μ) → Bool
  | some s => s.embeddings.isSome && s.documentData.isSome
  | none => false

theorem argsort_perm (sims : List ℝ) : List.Perm (argsort sims) (List.range sims.length) :=
  List.perm_insertionSort _ _

theorem argsort_length (sims : List ℝ) : (argsort sims).length = sims.length := by
  rw [(argsort_perm sims).length_eq, List.length_range]

theorem mem_argsort {sims : List ℝ} {i : ℕ} (h : i ∈ argsort sims) : i < sims.length := by
  have := (argsort_perm sims).mem_iff.mp h
  simpa using this

theorem argsort_nodup (sims : List ℝ) : (argsort sims).Nodup :=
  ((argsort_perm sims).nodup_iff).mpr (List.nodup_range _)

theorem argRel_total (sims : List ℝ) : ∀ i j, argRel sims i j ∨ argRel sims j i := by
  intro i j
  rcases lt_trichotomy (sims.getD i 0) (sims.getD j 0) with h | h | h
  · exact Or.inl (Or.inl h)
  · rcases Nat.le_total i j with hij | hij
    · exact Or.inl (Or.inr ⟨h, hij⟩)
    · exact Or.inr (Or.inr ⟨h.symm, hij⟩)
  · exact Or.inr (Or.inl h)

theorem argRel_trans (sims : List ℝ) :
    ∀ i j m, argRel sims i j → argRel sims j m → argRel sims i m := by
  intro i j m hij hjm
  rcases hij with h1 | ⟨e1, l1⟩
  · rcases hjm with h2 | ⟨e2, _⟩
    · exact Or.inl (h1.trans h2)
    · exact Or.inl (e2 ▸ h1)
  · rcases hjm with h2 | ⟨e2, l2⟩
    · exact Or.inl (e1 ▸ h2)
    · exact Or.inr ⟨e1.trans e2, l1.trans l2⟩

theorem argsort_sorted (sims : List ℝ) : (argsort sims).Sorted (argRel sims) := by
  haveI : IsTotal ℕ (argRel sims) := ⟨argRel_total sims⟩
  haveI : IsTrans ℕ (argRel sims) := ⟨argRel_trans sims⟩
  exact List.sorted_insertionSort _ _

theorem argsort_pairwise_strict (sims : List ℝ) :
    (argsort sims).Pairwise (argRelStrict sims) := by
  have h1 : (argsort sims).Pairwise (argRel sims) := argsort_sorted sims
  have h2 : (argsort sims).Pairwise (fun i j => i ≠ j) := argsort_nodup sims
  refine (h1.and h2).imp ?_
  rintro i j ⟨hr, hne⟩
  rcases hr with h | ⟨he, hle⟩
  · exact Or.inl h
  · exact Or.inr ⟨he, lt_of_le_of_ne hle hne⟩

theorem pySlice_sublist {α : Type} (l : List α) (k : ℤ) : (pySlice l k).Sublist l := by
  unfold pySlice
  split
  · exact List.take_sublist _ _
  · exact List.take_sublist _ _

theorem pySlice_length_of_nonneg {α : Type} (l : List α) {k : ℤ} (hk : 0 ≤ k) :
    (pySlice l k).length = min k.toNat l.length := by
  unfold pySlice
  rw [if_pos hk, List.length_take]

theorem topIndices_pairwise (sims : List ℝ) (k : ℤ) :
    (topIndices sims k).Pairwise (fun i j => argRelStrict sims j i) := by
  have hrev : ((argsort sims).reverse).Pairwise (fun i j => argRelStrict sims j i) :=
    List.pairwise_reverse.mpr (argsort_pairwise_strict sims)
  exact List.Pairwise.sublist (pySlice_sublist _ _) hrev

theorem mem_topIndices {sims : List ℝ} {k : ℤ} {i : ℕ} (h : i ∈ topIndices sims k) :
    i < sims.length :=
  mem_argsort (List.mem_reverse.mp ((pySlice_sublist _ _).subset h))

theorem topIndices_length (sims : List ℝ) {k : ℤ} (hk : 0 ≤ k) :
    (topIndices sims k).length = min k.toNat sims.length := by
  unfold topIndices
  rw [pySlice_length_of_nonneg _ hk, List.length_reverse, argsort_length]

theorem cosineSimilarities_length (q : List ℝ) (M : List (List ℝ)) :
    (cosineSimilarities q M).length = M.length := by
  simp [cosineSimilarities]

theorem joinResults_eq_map {ι μ : Type} [DecidableEq ι] (ids : List ι)
    (docs : List (Document ι μ)) (sims : List ℝ) (d0 : ι) :
    ∀ l : List ℕ, (∀ i ∈ l, i < ids.length ∧ i < sims.length) →
      joinResults ids docs sims l =
        some (l.map fun i =>
          (ids.getD i d0, sims.getD i 0, docs.find? fun d => decide (d.id = ids.getD i d0)))
  | [], _ => rfl
  | idx :: rest, h => by
    have hidx := h idx (List.mem_cons_self _ _)
    have h1 : ids[idx]? = some (ids.getD idx d0) := by
      rw [List.getD_eq_getElem?_getD, List.getElem?_eq_getElem hidx.1]
      rfl
    have h2 : sims[idx]? = some (sims.getD idx 0) := by
      rw [List.getD_eq_getElem?_getD, List.getElem?_eq_getElem hidx.2]
      rfl
    have ih := joinResults_eq_map ids docs sims d0 rest
      (fun i hi => h i (List.mem_cons_of_mem _ hi))
    simp only [joinResults, h1, h2, ih, List.map_cons]

theorem joinResults_scores {ι μ : Type} [DecidableEq ι] (ids : List ι)
    (docs : List (Document ι μ)) (sims : List ℝ) :
    ∀ (l : List ℕ) (res : List (ι × ℝ × Option (Document ι μ))),
      joinResults ids docs sims l = some res →
      res.map (fun t => t.2.1) = l.map fun i => sims.getD i 0
  | [], res, h => by
    simp only [joinResults, Option.some.injEq] at h
    simp [← h]
  | idx :: rest, res, h => by
    rw [joinResults] at h
    split at h
    next docId sv h1 h2 =>
      split at h
      next tail h3 =>
        cases h
        have ih := joinResults_scores ids docs sims rest tail h3
        simp [ih, h2]
      next => exact absurd h (by simp)
    next => exact absurd h (by simp)

/-- Claim C1: for every loaded embedding matrix of n rows (with the spec's
alignment invariant: one document per row, matching dimensionality, nonempty
corpus) and every positive integer k, find_similar_documents returns a result
sequence of length exactly min(k, n); in particular k greater than the corpus
size returns all n documents without error. -/
theorem claim_C1 {ι μ : Type} [DecidableEq ι] (M : List (List ℝ))
    (docs : List (Document ι μ)) (q : List ℝ) (k : ℤ) (hM : M ≠ [])
    (hdim : ∀ row ∈ M, row.length = q.length) (halign : docs.length = M.length)
    (hk : 1 ≤ k) :
    (find_similar_documents ⟨some M, some docs⟩ q k).map List.length =
      .ok (min k.toNat M.length) := by
  obtain ⟨d, _⟩ : ∃ d, d ∈ docs := by
    refine List.exists_mem_of_ne_nil _ fun hnil => hM ?_
    rw [hnil] at halign
    exact List.length_eq_zero.mp halign.symm
  have hc1 : ¬ (M.length = 0) := fun h => hM (List.length_eq_zero.mp h)
  have hc2 : ¬ ((M.any fun row => decide (row.length ≠ q.length)) = true) := by
    simp only [List.any_eq_true, decide_eq_true_eq, ne_eq, not_exists, not_and, not_not]
    exact hdim
  have hb : ∀ i ∈ topIndices (cosineSimilarities q M) k,
      i < (docs.map fun d => d.id).length ∧ i < (cosineSimilarities q M).length := by
    intro i hi
    have := mem_topIndices hi
    rw [cosineSimilarities_length] at this
    constructor
    · rw [List.length_map, halign]; exact this
    · rw [cosineSimilarities_length]; exact this
  simp only [find_similar_documents]
  rw [if_neg hc1, if_neg hc2,
    joinResults_eq_map (docs.map fun d => d.id) docs (cosineSimilarities q M) d.id _ hb]
  simp only [Except.map, List.length_map]
  rw [topIndices_length _ (le_trans (by norm_num) hk), cosineSimilarities_length]

/-- Claim C3: for every result sequence returned by find_similar_documents, the
similarity scores are monotonically non-increasing from the first entry to the
last. -/
theorem claim_C3 {ι μ : Type} [DecidableEq ι] (s : DocumentSearcher ι μ)
    (q : List ℝ) (k : ℤ) (res : List (ι × ℝ × Option (Document ι μ)))
    (h : find_similar_documents s q k = .ok res) :
    res.Pairwise fun a b => b.2.1 ≤ a.2.1 := by
  unfold find_similar_documents at h
  split at h
  · exact absurd h (by simp)
  next M hM =>
    split at h
    · exact absurd h (by simp)
    next docs hdocs =>
      split at h
      · exact absurd h (by simp)
      split at h
      · exact absurd h (by simp)
      split at h
      next => exact absurd h (by simp)
      next res' h3 =>
        have hres : res' = res := by
          simpa using h
        subst hres
        have hscores := joinResults_scores _ docs _ _ _ h3
        have hp : (res'.map fun t => t.2.1).Pairwise fun x y => y ≤ x := by
          rw [hscores]
          refine List.pairwise_map.mpr ((topIndices_pairwise _ k).imp ?_)
          intro i j hij
          rcases hij with hlt | ⟨he, _⟩
          · exact le_of_lt hlt
          · exact le_of_eq he
        exact List.pairwise_map.mp hp

/-- Claim C2 (amended): find_similar_documents sorts by score descending and is
deterministic (the embedding is a pure function of query and matrix, as
np.argsort is of its input), but ties are broken by original index DESCENDING,
not ascending: np.argsort sorts ascending with equal scores kept in ascending
index order (stable on small arrays), and the subsequent [::-1] reversal turns
that into descending index order among ties.  Stated: along the selected index
sequence, a later entry has a strictly smaller score or an equal score with a
strictly smaller original index (so among ties the LARGER index comes first). -/
theorem claim_C2_amended (q : List ℝ) (M : List (List ℝ)) (k : ℤ) :
    (topIndices (cosineSimilarities q M) k).Pairwise fun i j =>
      (cosineSimilarities q M).getD j 0 < (cosineSimilarities q M).getD i 0 ∨
        ((cosineSimilarities q M).getD j 0 = (cosineSimilarities q M).getD i 0 ∧ j < i) :=
  topIndices_pairwise (cosineSimilarities q M) k

/-- A fully evaluated tie run: two identical rows score identically against the
query, and the returned order is index 1 first, then index 0. -/
theorem eval_find_tie :
    find_similar_documents (⟨some [[1, 0], [1, 0]], some [⟨0, "A"⟩, ⟨1, "B"⟩]⟩ :
        DocumentSearcher ℕ String) [1, 0] 2 =
      .ok [(1, cosineSim [1, 0] [1, 0], some ⟨1, "B"⟩),
           (0, cosineSim [1, 0] [1, 0], some ⟨0, "A"⟩)] := by
  have hsims : cosineSimilarities [1, 0] [[1, 0], [1, 0]] =
      [cosineSim [1, 0] [1, 0], cosineSim [1, 0] [1, 0]] := by
    simp [cosineSimilarities]
  have hsort : argsort [cosineSim [1, 0] [1, 0], cosineSim [1, 0] [1, 0]] = [0, 1] := by
    unfold argsort
    rw [show List.range ([cosineSim [1, 0] [1, 0], cosineSim [1, 0] [1, 0]]).length = [0, 1]
      from rfl]
    simp only [List.insertionSort, List.orderedInsert]
    rw [if_pos]
    exact Or.inr ⟨rfl, by norm_num⟩
  have htop : topIndices [cosineSim [1, 0] [1, 0], cosineSim [1, 0] [1, 0]] 2 = [1, 0] := by
    unfold topIndices
    rw [hsort]
    rfl
  simp only [find_similar_documents]
  rw [if_neg (by decide : ¬ ([[(1:ℝ), 0], [1, 0]].length = 0)),
    if_neg (by decide :
      ¬ (([[(1:ℝ), 0], [1, 0]].any fun row => decide (row.length ≠ [(1:ℝ), 0].length)) = true)),
    hsims, htop]
  rfl

/-- Claim C2 counterexample: with two identical rows (tied scores) the code
returns document index 1 before index 0, refuting the claimed ascending
first-seen tie order, which would require [0, 1]. -/
theorem claim_C2_counterexample :
    Except.map (List.map fun t => t.1)
        (find_similar_documents (⟨some [[1, 0], [1, 0]], some [⟨0, "A"⟩, ⟨1, "B"⟩]⟩ :
          DocumentSearcher ℕ String) [1, 0] 2) = .ok [1, 0] ∧
      ([1, 0] : List ℕ) ≠ [0, 1] := by
  constructor
  · rw [eval_find_tie]
    rfl
  · decide

/-- Witness for claim C1 at a concrete input: 2 documents, k = 5 > 2, result
length min(5, 2) = 2. -/
theorem claim_C1_witness :
    (find_similar_documents (⟨some [[1], [2]], some [⟨0, "A"⟩, ⟨1, "B"⟩]⟩ :
        DocumentSearcher ℕ String) [3] 5).map List.length = .ok 2 := by
  have h := claim_C1 [[1], [2]] ([⟨0, "A"⟩, ⟨1, "B"⟩] : List (Document ℕ String)) [3] 5
    (by simp) (by simp) rfl (by decide)
  exact h

/-- Witness for claim C3 at a concrete successful run. -/
theorem claim_C3_witness :
    (find_similar_documents (⟨some [[1, 0], [1, 0]], some [⟨0, "A"⟩, ⟨1, "B"⟩]⟩ :
        DocumentSearcher ℕ String) [1, 0] 2 =
      .ok [(1, cosineSim [1, 0] [1, 0], some ⟨1, "B"⟩),
           (0, cosineSim [1, 0] [1, 0], some ⟨0, "A"⟩)]) ∧
      List.Pairwise (fun a b => b.2.1 ≤ a.2.1)
        [((1 : ℕ), cosineSim [1, 0] [1, 0], some (⟨1, "B"⟩ : Document ℕ String)),
         (0, cosineSim [1, 0] [1, 0], some ⟨0, "A"⟩)] :=
  ⟨eval_find_tie, claim_C3 _ _ _ _ eval_find_tie⟩

theorem sumSq_e1 : sumSq [(1:ℝ), 0] = 1 := by
  norm_num [sumSq]

theorem sumSq_e2 : sumSq [(0:ℝ), 1] = 1 := by
  norm_num [sumSq]

theorem l2normalize_e1 : l2normalize [(1:ℝ), 0] = [1, 0] := by
  unfold l2normalize
  rw [sumSq_e1, Real.sqrt_one, if_neg one_ne_zero]
  norm_num

theorem l2normalize_e2 : l2normalize [(0:ℝ), 1] = [0, 1] := by
  unfold l2normalize
  rw [sumSq_e2, Real.sqrt_one, if_neg one_ne_zero]
  norm_num

theorem cosineSim_e1_e1 : cosineSim [(1:ℝ), 0] [1, 0] = 1 := by
  unfold cosineSim
  rw [l2normalize_e1]
  norm_num [dotList]

theorem cosineSim_e1_e2 : cosineSim [(1:ℝ), 0] [0, 1] = 0 := by
  unfold cosineSim
  rw [l2normalize_e1, l2normalize_e2]
  norm_num [dotList]

/-- A fully evaluated run on a corpus with a duplicated id: row 1 wins (score 1
versus 0), its positionally read id is 7, but the metadata lookup scans for the
FIRST document whose id is 7 and returns document 0's metadata. -/
theorem eval_find_dup :
    find_similar_documents (⟨some [[0, 1], [1, 0]], some [⟨7, "A"⟩, ⟨7, "B"⟩]⟩ :
        DocumentSearcher ℕ String) [1, 0] 1 = .ok [(7, 1, some ⟨7, "A"⟩)] := by
  have hsims : cosineSimilarities [1, 0] [[0, 1], [1, 0]] = [0, 1] := by
    simp [cosineSimilarities, cosineSim_e1_e2, cosineSim_e1_e1]
  have hsort : argsort [(0:ℝ), 1] = [0, 1] := by
    unfold argsort
    rw [show List.range ([(0:ℝ), 1]).length = [0, 1] from rfl]
    simp only [List.insertionSort, List.orderedInsert]
    rw [if_pos]
    refine Or.inl ?_
    show ([(0:ℝ), 1].getD 0 0) < ([(0:ℝ), 1].getD 1 0)
    norm_num
  have htop : topIndices [(0:ℝ), 1] 1 = [1] := by
    unfold topIndices
    rw [hsort]
    rfl
  simp only [find_similar_documents]
  rw [if_neg (by decide : ¬ ([[(0:ℝ), 1], [1, 0]].length = 0)),
    if_neg (by decide :
      ¬ (([[(0:ℝ), 1], [1, 0]].any fun row => decide (row.length ≠ [(1:ℝ), 0].length)) = true)),
    hsims, htop]
  rfl

/-- Claim C5 counterexample: with two documents sharing id 7, the selected row
is index 1 but the returned metadata is document 0's (the first with that id),
not document 1's as a positional join would require. -/
theorem claim_C5_counterexample :
    find_similar_documents (⟨some [[0, 1], [1, 0]], some [⟨7, "A"⟩, ⟨7, "B"⟩]⟩ :
        DocumentSearcher ℕ String) [1, 0] 1 = .ok [(7, 1, some ⟨7, "A"⟩)] ∧
      some (⟨7, "A"⟩ : Document ℕ String) ≠ some ⟨7, "B"⟩ :=
  ⟨eval_find_dup, by decide⟩

theorem find_first_by_id {ι μ : Type} [DecidableEq ι] :
    ∀ (docs : List (Document ι μ)) (i : ℕ), (hi : i < docs.length) →
      (docs.map fun d => d.id).Nodup →
      docs.find? (fun d => decide (d.id = docs[i].id)) = some docs[i]
  | d :: rest, 0, _, _ => by simp
  | d :: rest, i + 1, hi, hnd => by
    have hi' : i < rest.length := by simpa using hi
    have hnd1 : (rest.map fun d => d.id).Nodup := by
      simp only [List.map_cons, List.nodup_cons] at hnd
      exact hnd.2
    have hne : d.id ≠ rest[i].id := by
      simp only [List.map_cons, List.nodup_cons] at hnd
      intro he
      refine hnd.1 ?_
      rw [he]
      exact List.mem_map_of_mem (fun d => d.id) (List.getElem_mem hi')
    have hcons : (d :: rest)[i + 1] = rest[i] := rfl
    rw [hcons, List.find?_cons_of_neg _ (by simpa using hne)]
    exact find_first_by_id rest i hi' hnd1

/-- Claim C5 (amended): find_similar_documents reads the id positionally
(document_ids[idx]) but retrieves the metadata by scanning document_data for
the FIRST document whose id equals that id.  When all ids are distinct this
coincides with the positional join: the i-th returned triple carries the id,
score and metadata of the document at the selected row index.  With duplicate
ids, every selection sharing an id receives the first matching document's
metadata (see the counterexample). -/
theorem claim_C5_amended {ι μ : Type} [DecidableEq ι] (M : List (List ℝ))
    (docs : List (Document ι μ)) (q : List ℝ) (k : ℤ) (d0 : Document ι μ)
    (hnd : (docs.map fun d => d.id).Nodup) (hM : M ≠ [])
    (hdim : ∀ row ∈ M, row.length = q.length) (halign : docs.length = M.length) :
    find_similar_documents ⟨some M, some docs⟩ q k =
      .ok ((topIndices (cosineSimilarities q M) k).map fun i =>
        ((docs.getD i d0).id, (cosineSimilarities q M).getD i 0, some (docs.getD i d0))) := by
  have hc1 : ¬ (M.length = 0) := fun h => hM (List.length_eq_zero.mp h)
  have hc2 : ¬ ((M.any fun row => decide (row.length ≠ q.length)) = true) := by
    simp only [List.any_eq_true, decide_eq_true_eq, ne_eq, not_exists, not_and, not_not]
    exact hdim
  have hb : ∀ i ∈ topIndices (cosineSimilarities q M) k,
      i < (docs.map fun d => d.id).length ∧ i < (cosineSimilarities q M).length := by
    intro i hi
    have h1 := mem_topIndices hi
    rw [cosineSimilarities_length] at h1
    exact ⟨by rw [List.length_map, halign]; exact h1,
      by rw [cosineSimilarities_length]; exact h1⟩
  simp only [find_similar_documents]
  rw [if_neg hc1, if_neg hc2,
    joinResults_eq_map (docs.map fun d => d.id) docs (cosineSimilarities q M) d0.id _ hb]
  refine congrArg Except.ok (List.map_congr_left fun i hi => ?_)
  have hlen := hb i hi
  have hidocs : i < docs.length := by
    have := hlen.1
    rwa [List.length_map] at this
  have h1 : (docs.map fun d => d.id).getD i d0.id = (docs.getD i d0).id := by
    rw [List.getD_eq_getElem?_getD, List.getElem?_eq_getElem hlen.1,
      List.getD_eq_getElem?_getD, List.getElem?_eq_getElem hidocs]
    simp
  have h2 : docs.getD i d0 = docs[i] := by
    rw [List.getD_eq_getElem?_getD, List.getElem?_eq_getElem hidocs]
    rfl
  rw [h1, h2, find_first_by_id docs i hidocs hnd]

/-- Witness for the amended claim C5 at a concrete input with a distinct-id
corpus. -/
theorem claim_C5_witness :
    find_similar_documents (⟨some [[1]], some [⟨0, "A"⟩]⟩ : DocumentSearcher ℕ String) [1] 1 =
      .ok ((topIndices (cosineSimilarities [1] [[1]]) 1).map fun i =>
        ((([⟨0, "A"⟩] : List (Document ℕ String)).getD i ⟨9, "Z"⟩).id,
          (cosineSimilarities [1] [[1]]).getD i 0,
          some (([⟨0, "A"⟩] : List (Document ℕ String)).getD i ⟨9, "Z"⟩))) :=
  claim_C5_amended [[1]] [⟨0, "A"⟩] [1] 1 ⟨9, "Z"⟩ (by decide) (by simp) (by simp) rfl

/-- Claim C4 (amended): the ranking raises (a library ValueError) when the
matrix is empty or when the query dimensionality mismatches the rows, but it
does NOT validate k: any k, including k < 1, is accepted by
find_similar_documents (k = 0 yields an empty result and negative k drops
trailing candidates via Python slicing); the k >= 1 validation lives only in
the HTTP layer.  For a loaded, nonempty, dimension-matching, aligned corpus the
call succeeds for every integer k. -/
theorem claim_C4_amended {ι μ : Type} [DecidableEq ι] (M : List (List ℝ))
    (docs : List (Document ι μ)) (q : List ℝ) (k : ℤ) :
    (M = [] → find_similar_documents ⟨some M, some docs⟩ q k =
        .error "Found array with 0 sample(s)") ∧
    (M ≠ [] → (∃ row ∈ M, row.length ≠ q.length) →
      find_similar_documents ⟨some M, some docs⟩ q k = .error "Incompatible dimension") ∧
    (M ≠ [] → (∀ row ∈ M, row.length = q.length) → docs.length = M.length →
      ∃ res, find_similar_documents ⟨some M, some docs⟩ q k = .ok res) := by
  refine ⟨?_, ?_, ?_⟩
  · intro h
    subst h
    rfl
  · intro hM hrow
    have hc1 : ¬ (M.length = 0) := fun h => hM (List.length_eq_zero.mp h)
    have hc2 : (M.any fun row => decide (row.length ≠ q.length)) = true := by
      simp only [List.any_eq_true, decide_eq_true_eq]
      exact hrow
    simp only [find_similar_documents]
    rw [if_neg hc1, if_pos hc2]
  · intro hM hdim halign
    have hc1 : ¬ (M.length = 0) := fun h => hM (List.length_eq_zero.mp h)
    have hc2 : ¬ ((M.any fun row => decide (row.length ≠ q.length)) = true) := by
      simp only [List.any_eq_true, decide_eq_true_eq, ne_eq, not_exists, not_and, not_not]
      exact hdim
    obtain ⟨d, _⟩ : ∃ d, d ∈ docs := by
      refine List.exists_mem_of_ne_nil _ fun hnil => hM ?_
      rw [hnil] at halign
      exact List.length_eq_zero.mp halign.symm
    have hb : ∀ i ∈ topIndices (cosineSimilarities q M) k,
        i < (docs.map fun x => x.id).length ∧ i < (cosineSimilarities q M).length := by
      intro i hi
      have h1 := mem_topIndices hi
      rw [cosineSimilarities_length] at h1
      exact ⟨by rw [List.length_map, halign]; exact h1,
        by rw [cosineSimilarities_length]; exact h1⟩
    refine ⟨(topIndices (cosineSimilarities q M) k).map fun i =>
      ((docs.map fun x => x.id).getD i d.id, (cosineSimilarities q M).getD i 0,
        docs.find? fun x => decide (x.id = (docs.map fun y => y.id).getD i d.id)), ?_⟩
    simp only [find_similar_documents]
    rw [if_neg hc1, if_neg hc2,
      joinResults_eq_map (docs.map fun x => x.id) docs (cosineSimilarities q M) d.id _ hb]

/-- Claim C4 counterexample: k = 0 < 1 on a valid loaded one-document corpus
does NOT fail with an error; the call returns an empty ok result, refuting
"fails with an InvalidInput error whenever the requested count k is less than
1". -/
theorem claim_C4_counterexample :
    find_similar_documents (⟨some [[2]], some [⟨0, "A"⟩]⟩ :
        DocumentSearcher ℕ String) [1] 0 = .ok [] := by
  simp only [find_similar_documents]
  rw [if_neg (by decide : ¬ ([[(2:ℝ)]].length = 0)),
    if_neg (by decide :
      ¬ (([[(2:ℝ)]].any fun row => decide (row.length ≠ [(1:ℝ)].length)) = true))]
  rfl

/-- Witness for the amended claim C4: the empty matrix errors, while k = 7 on a
valid corpus succeeds. -/
theorem claim_C4_witness :
    find_similar_documents (⟨some [], some []⟩ : DocumentSearcher ℕ String) [1] 3 =
      .error "Found array with 0 sample(s)" ∧
    ∃ res, find_similar_documents (⟨some [[2]], some [⟨0, "A"⟩]⟩ :
        DocumentSearcher ℕ String) [1] 7 = .ok res :=
  ⟨(claim_C4_amended [] [] [1] 3).1 rfl,
   (claim_C4_amended [[2]] [⟨0, "A"⟩] [1] 7).2.2 (by simp) (by simp) rfl⟩

theorem dotList_cons (x y : ℝ) (xs ys : List ℝ) :
    dotList (x :: xs) (y :: ys) = x * y + dotList xs ys := by
  simp [dotList]

theorem dotList_zero_left (v w : List ℝ) (h : ∀ x ∈ v, x = 0) : dotList v w = 0 := by
  induction v generalizing w with
  | nil => simp [dotList]
  | cons x xs ih =>
    cases w with
    | nil => simp [dotList]
    | cons y ys =>
      rw [dotList_cons, h x (List.mem_cons_self _ _),
        ih ys fun z hz => h z (List.mem_cons_of_mem _ hz)]
      ring

theorem dotList_zero_right (v w : List ℝ) (h : ∀ x ∈ w, x = 0) : dotList v w = 0 := by
  induction v generalizing w with
  | nil => simp [dotList]
  | cons x xs ih =>
    cases w with
    | nil => simp [dotList]
    | cons y ys =>
      rw [dotList_cons, h y (List.mem_cons_self _ _),
        ih ys fun z hz => h z (List.mem_cons_of_mem _ hz)]
      ring

theorem sumSq_nonneg (v : List ℝ) : 0 ≤ sumSq v := by
  induction v with
  | nil => simp [sumSq]
  | cons x xs ih =>
    have h : sumSq (x :: xs) = x * x + sumSq xs := by simp [sumSq]
    rw [h]
    nlinarith [mul_self_nonneg x]

theorem mem_eq_zero_of_sumSq (v : List ℝ) (h : sumSq v = 0) : ∀ x ∈ v, x = 0 := by
  induction v with
  | nil => simp
  | cons x xs ih =>
    have hc : sumSq (x :: xs) = x * x + sumSq xs := by simp [sumSq]
    rw [hc] at h
    have hx : x * x = 0 := by nlinarith [sumSq_nonneg xs, mul_self_nonneg x]
    have hxs : sumSq xs = 0 := by nlinarith [sumSq_nonneg xs, mul_self_nonneg x]
    intro z hz
    rcases List.mem_cons.mp hz with rfl | hz1
    · exact mul_self_eq_zero.mp hx
    · exact ih hxs z hz1

/-- Claim C6: when either the query vector or a document row has zero L2 norm,
the cosine similarity computed for that pair is 0; the normalisation guard
(zero norms replaced by 1 inside sklearn) means no division by zero is ever
performed. -/
theorem claim_C6 (q r : List ℝ)
    (h : Real.sqrt (sumSq q) = 0 ∨ Real.sqrt (sumSq r) = 0) :
    cosineSim q r = 0 := by
  rcases h with h | h
  · have hq : sumSq q = 0 := le_antisymm (Real.sqrt_eq_zero'.mp h) (sumSq_nonneg q)
    unfold cosineSim l2normalize
    rw [if_pos h]
    exact dotList_zero_left _ _ (mem_eq_zero_of_sumSq q hq)
  · have hr : sumSq r = 0 := le_antisymm (Real.sqrt_eq_zero'.mp h) (sumSq_nonneg r)
    unfold cosineSim l2normalize
    rw [if_pos h]
    exact dotList_zero_right _ _ (mem_eq_zero_of_sumSq r hr)

/-- Witness for claim C6 with a concrete zero query vector. -/
theorem claim_C6_witness :
    (Real.sqrt (sumSq [(0:ℝ), 0]) = 0 ∨ Real.sqrt (sumSq [(1:ℝ), 2]) = 0) ∧
      cosineSim [(0:ℝ), 0] [1, 2] = 0 :=
  ⟨Or.inl (by norm_num [sumSq]),
   claim_C6 [(0:ℝ), 0] [1, 2] (Or.inl (by norm_num [sumSq]))⟩

theorem cosineSim_one_one : cosineSim [(1:ℝ)] [1] = 1 := by
  have h : sumSq [(1:ℝ)] = 1 := by norm_num [sumSq]
  unfold cosineSim l2normalize
  rw [h, Real.sqrt_one, if_neg one_ne_zero]
  norm_num [dotList]

/-- A fully evaluated one-document run: for any k >= 1 the single document is
returned with score 1. -/
theorem eval_find_one {ι μ : Type} [DecidableEq ι] (d : Document ι μ) {k : ℤ} (hk : 1 ≤ k) :
    find_similar_documents (⟨some [[1]], some [d]⟩ : DocumentSearcher ι μ) [1] k =
      .ok [(d.id, 1, some d)] := by
  have hsims : cosineSimilarities [1] [[1]] = [1] := by
    simp [cosineSimilarities, cosineSim_one_one]
  have hsort : argsort [(1:ℝ)] = [0] := by
    unfold argsort
    rw [show List.range ([(1:ℝ)]).length = [0] from rfl]
    simp [List.insertionSort, List.orderedInsert]
  have htop : topIndices [(1:ℝ)] k = [0] := by
    unfold topIndices
    rw [hsort]
    show pySlice [0] k = [0]
    unfold pySlice
    rw [if_pos (le_trans (by norm_num) hk)]
    refine List.take_of_length_le ?_
    show 1 ≤ k.toNat
    omega
  simp only [find_similar_documents]
  rw [if_neg (by decide : ¬ ([[(1:ℝ)]].length = 0)),
    if_neg (by decide :
      ¬ (([[(1:ℝ)]].any fun row => decide (row.length ≠ [(1:ℝ)].length)) = true)),
    hsims, htop]
  simp [joinResults]

/-- Claim C10: a JSON boolean true as top_k passes the isinstance(int) check
(Python bools are ints) and the request is processed as a search with k = 1,
returning the 200 payload rather than a 400 rejection. -/
theorem claim_C10 :
    search_documents (some (⟨some [[1]], some [⟨0, ⟨some "T", none, none, none,
        some "hello", []⟩⟩]⟩ : DocumentSearcher ℕ DocMeta)) (fun _ => [1])
      (some [("query", .str "hi"), ("top_k", .bool true)]) =
      .ok (.str "hi") 1 [⟨0, 1, "T", "N/A", "N/A", "hello...", "N/A", []⟩] := by
  have hstep : search_documents (some (⟨some [[1]], some [⟨0, ⟨some "T", none, none, none,
        some "hello", []⟩⟩]⟩ : DocumentSearcher ℕ DocMeta)) (fun _ => [1])
      (some [("query", .str "hi"), ("top_k", .bool true)]) =
      (match find_similar_documents (⟨some [[1]], some [⟨0, ⟨some "T", none, none, none,
          some "hello", []⟩⟩]⟩ : DocumentSearcher ℕ DocMeta) [1] 1 with
        | .error e => .err 500 ("Search failed: " ++ e)
        | .ok rs => .ok (.str "hi") 1 (rs.map formatResultItem)) := rfl
  rw [hstep, eval_find_one (⟨0, ⟨some "T", none, none, none, some "hello", []⟩⟩ :
    Document ℕ DocMeta) (le_refl 1)]
  rfl

set_option maxRecDepth 4000 in
/-- Claim C8 counterexample: a document whose text has 201 characters yields a
text_preview of its first 200 characters PLUS an appended "..." - a string of
203 characters, which is longer than 200 and is not a truncation of the text;
this refutes "text_preview is the document's text truncated to at most 200
characters". -/
theorem claim_C8_counterexample :
    search_documents (some (⟨some [[1]], some [⟨0, ⟨none, none, none, none,
        some ⟨List.replicate 201 'a'⟩, []⟩⟩]⟩ : DocumentSearcher ℕ DocMeta)) (fun _ => [1])
      (some [("query", .str "x")]) =
      .ok (.str "x") 5 [⟨0, 1, "N/A", "N/A", "N/A",
        (⟨List.replicate 200 'a'⟩ : String) ++ "...", "N/A", []⟩] ∧
      200 < ((⟨List.replicate 200 'a'⟩ : String) ++ "...").length := by
  constructor
  · have hstep : search_documents (some (⟨some [[1]], some [⟨0, ⟨none, none, none, none,
          some ⟨List.replicate 201 'a'⟩, []⟩⟩]⟩ : DocumentSearcher ℕ DocMeta)) (fun _ => [1])
        (some [("query", .str "x")]) =
        (match find_similar_documents (⟨some [[1]], some [⟨0, ⟨none, none, none, none,
            some ⟨List.replicate 201 'a'⟩, []⟩⟩]⟩ : DocumentSearcher ℕ DocMeta) [1] 5 with
          | .error e => .err 500 ("Search failed: " ++ e)
          | .ok rs => .ok (.str "x") 5 (rs.map formatResultItem)) := rfl
    rw [hstep, eval_find_one (⟨0, ⟨none, none, none, none,
      some ⟨List.replicate 201 'a'⟩, []⟩⟩ : Document ℕ DocMeta) (by norm_num)]
    rfl
  · decide

/-- Claim C8 (amended): text_preview is the first 200 characters of the
document's text FOLLOWED BY the three-character ellipsis "..." whenever the
document is present with a nonempty text (hence at most 203 characters);
otherwise it is the string "N/A". -/
theorem claim_C8_amended {ι : Type} (r : ι × ℝ × Option (Document ι DocMeta)) :
    (formatResultItem r).text_preview.length ≤ 203 ∧
      (∀ (d : Document ι DocMeta) (t : String), r.2.2 = some d → d.meta.text = some t →
        t ≠ "" → (formatResultItem r).text_preview = pyStrTake t 200 ++ "...") := by
  obtain ⟨docId, score, docData⟩ := r
  constructor
  · cases docData with
    | none =>
      show ("N/A" : String).length ≤ 203
      decide
    | some d =>
      cases ht : d.meta.text with
      | none =>
        simp only [formatResultItem, ht]
        decide
      | some t =>
        by_cases he : t = ""
        · simp only [formatResultItem, ht, he]
          decide
        · simp only [formatResultItem, ht, if_neg he, pyStrTake, String.length_append,
            String.length_mk, List.length_take]
          have h3 : ("..." : String).length = 3 := rfl
          rw [h3]
          omega
  · intro d t hd ht hne
    simp only at hd
    subst hd
    simp [formatResultItem, ht, hne]

/-- Witness for the amended claim C8 at a concrete short text. -/
theorem claim_C8_witness :
    (formatResultItem ((0 : ℕ), (1 : ℝ), some (⟨0, ⟨none, none, none, none, some "hello",
        []⟩⟩ : Document ℕ DocMeta))).text_preview.length ≤ 203 ∧
      (formatResultItem ((0 : ℕ), (1 : ℝ), some (⟨0, ⟨none, none, none, none, some "hello",
        []⟩⟩ : Document ℕ DocMeta))).text_preview = pyStrTake "hello" 200 ++ "..." :=
  ⟨(claim_C8_amended _).1, (claim_C8_amended _).2 _ _ rfl rfl (by decide)⟩

/-- Claim C7: POST /search with an initialized searcher rejects a body lacking
a query field with HTTP 400 and a message; rejects a top_k failing Python's
positive-int validation (isinstance int and >= 1) with HTTP 400 and the
explanatory message; and an absent top_k defaults to the integer 5.  (A JSON
boolean is an instance of int in Python; claim C10 covers that case.) -/
theorem claim_C7 {ι : Type} [DecidableEq ι] (s : DocumentSearcher ι DocMeta)
    (embed : JsonVal → List ℝ) (data : List (String × JsonVal)) :
    (List.lookup "query" data = none →
      ∃ msg, search_documents (some s) embed (some data) = .err 400 msg) ∧
    (∀ q, List.lookup "query" data = some q → pyTruthy q = true →
      pyIsPosInt (effectiveTopK data) = false →
      search_documents (some s) embed (some data) =
        .err 400 "top_k must be a positive integer") ∧
    (List.lookup "top_k" data = none →
      effectiveTopK data = .num 5 ∧ pyToInt (effectiveTopK data) = 5) := by
  refine ⟨?_, ?_, ?_⟩
  · intro h
    simp only [search_documents]
    by_cases he : data.isEmpty
    · rw [if_pos he]
      exact ⟨_, rfl⟩
    · rw [if_neg he, h]
      exact ⟨_, rfl⟩
  · intro q hq ht hk
    have he : ¬ (data.isEmpty = true) := by
      cases data with
      | nil => simp [List.lookup] at hq
      | cons a l => simp [List.isEmpty]
    simp only [search_documents]
    rw [if_neg he, hq]
    dsimp only
    rw [if_neg (by simp [ht]), if_pos hk]
  · intro h
    rw [effectiveTopK, h]
    exact ⟨rfl, rfl⟩

/-- Witness for claim C7: a body without query is rejected 400; top_k = 0 is
rejected 400 with the message; a body without top_k gets the default 5. -/
theorem claim_C7_witness :
    (∃ msg, search_documents (some (⟨none, none⟩ : DocumentSearcher ℕ DocMeta))
        (fun _ => []) (some [("a", JsonVal.null)]) = .err 400 msg) ∧
    search_documents (some (⟨none, none⟩ : DocumentSearcher ℕ DocMeta)) (fun _ => [])
        (some [("query", .str "hi"), ("top_k", .num 0)]) =
      .err 400 "top_k must be a positive integer" ∧
    (effectiveTopK [("query", JsonVal.str "hi")] = .num 5 ∧
      pyToInt (effectiveTopK [("query", JsonVal.str "hi")]) = 5) :=
  ⟨(claim_C7 (⟨none, none⟩ : DocumentSearcher ℕ DocMeta) (fun _ => [])
      [("a", JsonVal.null)]).1 rfl,
   (claim_C7 (⟨none, none⟩ : DocumentSearcher ℕ DocMeta) (fun _ => [])
      [("query", .str "hi"), ("top_k", .num 0)]).2.1 (.str "hi") rfl (by decide) (by decide),
   (claim_C7 (⟨none, none⟩ : DocumentSearcher ℕ DocMeta) (fun _ => [])
      [("query", JsonVal.str "hi")]).2.2 rfl⟩

/-- Claim C9: in every serving process (the __main__ block exits unless
initialize_searcher succeeded), the health endpoint's searcher_initialized
boolean agrees with "the ranker is loaded" (both files read into the
searcher); and POST /search with an uninitialized searcher returns a 500
server error. -/
theorem claim_C9 {ι μ : Type} [DecidableEq ι] :
    (∀ (env : ServerEnv ι μ) (st : Option (DocumentSearcher ι μ)),
      serverMain env = some st → (health st).2 = isLoaded st) ∧
    (∀ (embed : JsonVal → List ℝ) (body : Option (List (String × JsonVal))),
      search_documents (none : Option (DocumentSearcher ι DocMeta)) embed body =
        .err 500 "Document searcher not initialized") := by
  constructor
  · intro env st h
    obtain ⟨ef, df⟩ := env
    cases ef with
    | none => simp [serverMain, initialize_searcher] at h
    | some emb =>
      cases df with
      | none => simp [serverMain, initialize_searcher] at h
      | some docs =>
        have hst : st = some ⟨some emb, some docs⟩ := by
          simpa [serverMain, initialize_searcher] using h.symm
        subst hst
        rfl
  · intro embed body
    rfl

/-- Witness for claim C9: a successfully initialized server reports
searcher_initialized = true = loaded, and the handler answers 500 on a None
searcher. -/
theorem claim_C9_witness :
    ((health (some (⟨some [[1]], some [⟨(0 : ℕ), "A"⟩]⟩ : DocumentSearcher ℕ String))).2 =
      isLoaded (some (⟨some [[1]], some [⟨(0 : ℕ), "A"⟩]⟩ : DocumentSearcher ℕ String))) ∧
    search_documents (none : Option (DocumentSearcher ℕ DocMeta)) (fun _ => []) none =
      .err 500 "Document searcher not initialized" :=
  ⟨(@claim_C9 ℕ String _).1 ⟨some [[1]], some [⟨0, "A"⟩]⟩
      (some ⟨some [[1]], some [⟨0, "A"⟩]⟩) rfl,
   (@claim_C9 ℕ String _).2 (fun _ => []) none⟩
